import Mathlib

/-
Verification development for the weather-skill scoring and aggregation code
in forecast_skill/skills/get_weather.py. Python numbers are modelled as exact
rationals, Python strings as Lean strings, and Python dictionaries either as
Lean structures (fixed-key dictionaries such as the activity profiles) or as
association lists in declaration order (the keyword tables). The expression
max(set(xs), key=xs.count) iterates over a Python set, whose iteration order
is unspecified (hash based); it is modelled by an explicit enumeration
parameter constrained by the predicate PySetOrder below.
-/

/-- Computable floor of a rational, equal to the mathematical floor. -/
def ratFloor (q : ℚ) : ℤ := q.num / q.den

/-- Python round(x) on an exact rational: round half to even. -/
def pyRound (q : ℚ) : ℤ :=
  let f : ℤ := ratFloor q
  let r : ℚ := q - f
  if r < 1/2 then f
  else if 1/2 < r then f + 1
  else if f % 2 = 0 then f else f + 1

/-- Python round(x, 1) on an exact rational. -/
def pyRound1 (q : ℚ) : ℚ := (pyRound (q * 10) : ℚ) / 10

/-- Python round(x, 2) on an exact rational. -/
def pyRound2 (q : ℚ) : ℚ := (pyRound (q * 100) : ℚ) / 100

/-- Python max over a list of rationals; 0 on the empty list (the code only
applies it to nonempty per-day sample groups). -/
def qMax : List ℚ → ℚ
  | [] => 0
  | x :: xs => xs.foldl max x

/-- Python min over a list of rationals; 0 on the empty list. -/
def qMin : List ℚ → ℚ
  | [] => 0
  | x :: xs => xs.foldl min x

/-- Sum of a list of rationals. -/
def qSum : List ℚ → ℚ
  | [] => 0
  | x :: xs => x + qSum xs

/-- Arithmetic mean of a list of rationals; 0 on the empty list. -/
def qMean (l : List ℚ) : ℚ := qSum l / (l.length : ℚ)

/-- Whether the first character list is a leading segment of the second. -/
def leadsList : List Char → List Char → Bool
  | [], _ => true
  | _ :: _, [] => false
  | a :: as, b :: bs => a == b && leadsList as bs

/-- Python substring containment (the in operator) on character lists. -/
def substrList : List Char → List Char → Bool
  | n, [] => n.isEmpty
  | n, b :: t => leadsList n (b :: t) || substrList n t

/-- Python substring containment needle in hay on strings. -/
def containsSub (needle hay : String) : Bool := substrList needle.data hay.data

/-- Python str.lower restricted to ASCII, as a character-list map. -/
def pyLower (s : String) : String := ⟨s.data.map Char.toLower⟩

/-- Python repr of a nonnegative float whose value has at most one decimal
digit, the shape produced by round(x, 1); other denominators fall back to a
fraction rendering (never produced by the aggregator). -/
def pyFloatNN (q : ℚ) : String :=
  if (q * 10).den = 1 then
    let t : ℤ := (q * 10).num
    toString (t / 10) ++ "." ++ toString (t % 10)
  else toString q.num ++ "/" ++ toString q.den

/-- Python repr of a float as interpolated by f-strings in the code. -/
def pyFloat (q : ℚ) : String :=
  if q < 0 then "-" ++ pyFloatNN (-q) else pyFloatNN q

/-- One 3-hour forecast sample from the list field of the upstream response.
The calendar date derived from the dt timestamp by the local fromtimestamp
collaborator is carried directly as a natural number ordinal. -/
structure ForecastSample where
  date : ℕ
  temp : ℚ
  condition_main : String
  condition_desc : String
  humidity : ℚ
  wind_speed : ℚ
  pop : ℚ
  rain3h : ℚ
  snow3h : ℚ
deriving DecidableEq, Repr

/-- One per-day summary dictionary produced by get_multi_day_forecast.
The formatted date label (strftime, a collaborator) is not modelled. -/
structure DaySummary where
  date : ℕ
  temp_high_c : ℚ
  temp_high_f : ℚ
  temp_low_c : ℚ
  temp_low_f : ℚ
  condition : String
  condition_main : String
  humidity : ℚ
  wind_kph : ℚ
  precip_mm : ℚ
  precip_probability : ℚ
  uv_index : ℚ
deriving DecidableEq, Repr

/-- The per-factor weights of an activity profile. -/
structure ActivityFactors where
  temperature : ℚ
  wind : ℚ
  precipitation : ℚ
  conditions : ℚ
deriving DecidableEq, Repr

/-- One entry of the ACTIVITY_PROFILES registry. Keys read with .get in the
code are optional fields here. -/
structure ActivityProfile where
  name : String
  ideal_temp_range : ℚ × ℚ
  max_wind_kph : Option ℚ
  max_precip_rain : Option ℚ
  min_precip_snow : Option ℚ
  max_humidity : Option ℚ
  ideal_humidity_range : Option (ℚ × ℚ)
  factors : ActivityFactors
deriving DecidableEq, Repr

/-- The skiing entry of ACTIVITY_PROFILES. -/
def skiing_profile : ActivityProfile :=
  { name := "Skiing"
  , ideal_temp_range := (-15, 10)
  , max_wind_kph := some 40
  , max_precip_rain := some 5
  , min_precip_snow := some 0
  , max_humidity := none
  , ideal_humidity_range := none
  , factors := { temperature := 0.25, wind := 0.15, precipitation := 0.35, conditions := 0.25 } }

/-- The picnic entry of ACTIVITY_PROFILES. -/
def picnic_profile : ActivityProfile :=
  { name := "Picnic"
  , ideal_temp_range := (10, 35)
  , max_wind_kph := some 30
  , max_precip_rain := some 2
  , min_precip_snow := none
  , max_humidity := some 85
  , ideal_humidity_range := none
  , factors := { temperature := 0.20, wind := 0.15, precipitation := 0.40, conditions := 0.25 } }

/-- The hiking entry of ACTIVITY_PROFILES. -/
def hiking_profile : ActivityProfile :=
  { name := "Hiking"
  , ideal_temp_range := (0, 35)
  , max_wind_kph := some 50
  , max_precip_rain := some 8
  , min_precip_snow := none
  , max_humidity := none
  , ideal_humidity_range := none
  , factors := { temperature := 0.20, wind := 0.15, precipitation := 0.35, conditions := 0.30 } }

/-- The gardening entry of ACTIVITY_PROFILES. -/
def gardening_profile : ActivityProfile :=
  { name := "Gardening"
  , ideal_temp_range := (0, 40)
  , max_wind_kph := some 35
  , max_precip_rain := none
  , min_precip_snow := none
  , max_humidity := none
  , ideal_humidity_range := some (30, 90)
  , factors := { temperature := 0.15, wind := 0.15, precipitation := 0.45, conditions := 0.25 } }

/-- The beach entry of ACTIVITY_PROFILES. -/
def beach_profile : ActivityProfile :=
  { name := "Beach Day"
  , ideal_temp_range := (18, 40)
  , max_wind_kph := some 35
  , max_precip_rain := some 1
  , min_precip_snow := none
  , max_humidity := some 85
  , ideal_humidity_range := none
  , factors := { temperature := 0.30, wind := 0.15, precipitation := 0.35, conditions := 0.20 } }

/-- The cycling entry of ACTIVITY_PROFILES. -/
def cycling_profile : ActivityProfile :=
  { name := "Cycling"
  , ideal_temp_range := (0, 35)
  , max_wind_kph := some 40
  , max_precip_rain := some 3
  , min_precip_snow := none
  , max_humidity := none
  , ideal_humidity_range := none
  , factors := { temperature := 0.20, wind := 0.30, precipitation := 0.30, conditions := 0.20 } }

/-- The outdoor entry of ACTIVITY_PROFILES. -/
def outdoor_profile : ActivityProfile :=
  { name := "Outdoor Activity"
  , ideal_temp_range := (5, 30)
  , max_wind_kph := some 35
  , max_precip_rain := some 3
  , min_precip_snow := none
  , max_humidity := none
  , ideal_humidity_range := none
  , factors := { temperature := 0.25, wind := 0.20, precipitation := 0.35, conditions := 0.20 } }

/-- The sports entry of ACTIVITY_PROFILES. -/
def sports_profile : ActivityProfile :=
  { name := "Outdoor Sports"
  , ideal_temp_range := (0, 35)
  , max_wind_kph := some 40
  , max_precip_rain := some 2
  , min_precip_snow := none
  , max_humidity := none
  , ideal_humidity_range := none
  , factors := { temperature := 0.20, wind := 0.25, precipitation := 0.35, conditions := 0.20 } }

/-- The static activity profile registry, in declaration order. -/
def ACTIVITY_PROFILES : List (String × ActivityProfile) := [
  ("skiing", skiing_profile),
  ("picnic", picnic_profile),
  ("hiking", hiking_profile),
  ("gardening", gardening_profile),
  ("beach", beach_profile),
  ("cycling", cycling_profile),
  ("outdoor", outdoor_profile),
  ("sports", sports_profile)]

/-- Embedding of calculate_temperature_score: gradual score inside the ideal
range with peak at the center, linear decay outside with a 20 degree cold
tolerance and a 25 degree heat tolerance. -/
def calculate_temperature_score (temp : ℚ) (profile : ActivityProfile) : ℚ :=
  let min_temp := profile.ideal_temp_range.1
  let max_temp := profile.ideal_temp_range.2
  let ideal_center := (min_temp + max_temp) / 2
  let ideal_range := max_temp - min_temp
  if min_temp ≤ temp ∧ temp ≤ max_temp then
    1.0 - (|temp - ideal_center| / (ideal_range / 2)) * 0.2
  else if temp < min_temp then
    max 0 (1.0 - (min_temp - temp) / 20)
  else
    max 0 (1.0 - (temp - max_temp) / 25)

/-- Embedding of calculate_wind_score: full score up to half the maximum,
then a linear penalty of up to 30 percent, then a linear decline from 0.7
floored at 0 beyond the maximum. -/
def calculate_wind_score (wind_kph : ℚ) (profile : ActivityProfile) : ℚ :=
  let max_wind := profile.max_wind_kph.getD 50
  if wind_kph ≤ max_wind * 0.5 then 1.0
  else if wind_kph ≤ max_wind then
    let excess := wind_kph - max_wind * 0.5
    let penalty := excess / (max_wind * 0.5) * 0.3
    1.0 - penalty
  else
    let excess := wind_kph - max_wind
    max 0 (0.7 - excess / max_wind)

/-- Embedding of calculate_precipitation_score with its three branches: the
snow branch for profiles declaring min_precip_snow, the branch keyed on the
substring gardening in the lowercased profile name, and the general branch
comparing the amount against max_precip_rain with a probability penalty. -/
def calculate_precipitation_score (day : DaySummary) (profile : ActivityProfile) : ℚ :=
  let precip := day.precip_mm
  let precip_prob := day.precip_probability
  if profile.min_precip_snow.isSome ∧ day.condition_main = "Snow" then
    min 1.0 (0.6 + precip / 10)
  else if containsSub "gardening" (pyLower profile.name) then
    if precip_prob > 70 then 0.3 + 0.4 * (1 - precip_prob / 100)
    else if precip > 0 then 0.7 + min 0.2 (precip / 10)
    else 0.6
  else
    let max_rain := profile.max_precip_rain.getD 2
    let base_score :=
      if precip ≤ max_rain * 0.5 then (0.9 : ℚ)
      else if precip ≤ max_rain then 0.7
      else max 0.1 (0.6 - (precip - max_rain) / 15)
    let prob_penalty := precip_prob / 100 * 0.2
    max 0.1 (base_score - prob_penalty)

/-- Embedding of calculate_condition_score: the fixed condition lookup table,
with the snow entry keyed on the substring skiing in the lowercased profile
name and 0.5 for categories outside the table. -/
def calculate_condition_score (condition_main : String) (profile : ActivityProfile) : ℚ :=
  if condition_main = "Clear" then 1.0
  else if condition_main = "Clouds" then 0.8
  else if condition_main = "Rain" then 0.3
  else if condition_main = "Snow" then
    if containsSub "skiing" (pyLower profile.name) then 0.9 else 0.4
  else if condition_main = "Thunderstorm" then 0.0
  else if condition_main = "Drizzle" then 0.5
  else if condition_main = "Mist" then 0.6
  else if condition_main = "Fog" then 0.4
  else 0.5

/-- Embedding of calculate_activity_score: the weighted sum of the four
sub-scores scaled to 100 and clamped to the interval from 0 to 100. -/
def calculate_activity_score (day : DaySummary) (profile : ActivityProfile) : ℚ :=
  let temp_score := calculate_temperature_score day.temp_high_c profile
  let wind_score := calculate_wind_score day.wind_kph profile
  let precip_score := calculate_precipitation_score day profile
  let condition_score := calculate_condition_score day.condition_main profile
  let factors := profile.factors
  let total_score :=
    (temp_score * factors.temperature +
     wind_score * factors.wind +
     precip_score * factors.precipitation +
     condition_score * factors.conditions) * 100
  max 0 (min 100 total_score)

/-- Embedding of get_rating_text. -/
def get_rating_text (score : ℚ) : String :=
  if score ≥ 80 then "Excellent"
  else if score ≥ 60 then "Good"
  else if score ≥ 40 then "Fair"
  else if score ≥ 20 then "Poor"
  else "Not Recommended"

/-- Embedding of get_main_concern: temperature below, temperature above,
precipitation, wind, in that order, with a marginal fallback. -/
def get_main_concern (day : DaySummary) (profile : ActivityProfile) : String :=
  let temp := day.temp_high_c
  let wind := day.wind_kph
  let precip := day.precip_mm
  let min_temp := profile.ideal_temp_range.1
  let max_temp := profile.ideal_temp_range.2
  if temp < min_temp then "too cold (" ++ pyFloat temp ++ "°C)"
  else if temp > max_temp then "too hot (" ++ pyFloat temp ++ "°C)"
  else if precip > profile.max_precip_rain.getD 0 then
    "rain expected (" ++ pyFloat precip ++ "mm)"
  else if wind > profile.max_wind_kph.getD 50 then
    "too windy (" ++ pyFloat wind ++ " km/h)"
  else "marginal conditions"

/-- Embedding of generate_day_recommendation: four score bands at 80, 60 and
40; the two lower bands interpolate the main concern into the text. -/
def generate_day_recommendation (day : DaySummary) (profile : ActivityProfile)
    (score : ℚ) : String :=
  let temp := day.temp_high_c
  let condition := day.condition
  if score ≥ 80 then
    "Excellent conditions! " ++ pyFloat temp ++ "°C, " ++ pyLower condition ++ ", light winds."
  else if score ≥ 60 then
    "Good conditions. " ++ pyFloat temp ++ "°C with " ++ pyLower condition ++ "."
  else if score ≥ 40 then
    "Fair conditions. Watch for " ++ get_main_concern day profile ++ "."
  else
    "Not recommended. " ++ get_main_concern day profile ++ "."

/-- Embedding of generate_overall_recommendation with its bands at 75, 60
and 40 over the mean of the daily scores. -/
def generate_overall_recommendation (profile : ActivityProfile) (scores : List ℚ)
    (daily_recs : List String) : String :=
  let avg_score := if scores.isEmpty then 0 else qSum scores / (scores.length : ℚ)
  let activity_name := pyLower profile.name
  if avg_score ≥ 75 then
    "Great period for " ++ activity_name ++ "! Most days have excellent conditions."
  else if avg_score ≥ 60 then
    "Good period for " ++ activity_name ++ ". Choose the better days from the forecast."
  else if avg_score ≥ 40 then
    "Mixed conditions for " ++ activity_name ++ ". Plan around the weather."
  else
    "Poor period for " ++ activity_name ++ ". Consider postponing or indoor alternatives."

/-- Python iteration of max(items, key) over an already enumerated list:
the fold keeps the current item unless a later item has a strictly greater
key, so the first item attaining the maximal key wins. -/
def maxByKey (key : String → ℕ) : List String → Option String
  | [] => none
  | x :: xs => some (xs.foldl (fun acc y => if key acc < key y then y else acc) x)

/-- Predicate on an enumeration function standing in for Python set
iteration: the enumeration of a list lists exactly its distinct elements,
each once, in an unspecified order. -/
def PySetOrder (ord : List String → List String) : Prop :=
  ∀ l, (ord l).Nodup ∧ ∀ x, x ∈ ord l ↔ x ∈ l

/-- The set enumeration that happens to list distinct elements in first
encountered order. -/
def dedupOrder : List String → List String := fun l => l.dedup

/-- Distinct sample dates in first occurrence order, as collected by the
grouping dictionary of get_multi_day_forecast. -/
def datesOf (samples : List ForecastSample) : List ℕ :=
  (samples.map (fun s => s.date)).dedup

/-- The samples of one calendar date, in sample order, as accumulated by the
grouping dictionary of get_multi_day_forecast. -/
def sameDate (d : ℕ) (samples : List ForecastSample) : List ForecastSample :=
  samples.filter (fun s => s.date == d)

/-- The per-day summary built by the output loop of get_multi_day_forecast
from the grouped samples of one date. The parameter ord models Python set
iteration order in max(set(condition_mains), key=condition_mains.count). -/
def summarize_day (ord : List String → List String) (d : ℕ)
    (group : List ForecastSample) : DaySummary :=
  let temps := group.map (fun s => s.temp)
  let condition_mains := group.map (fun s => s.condition_main)
  let most_common_main :=
    (maxByKey (fun c => condition_mains.count c) (ord condition_mains)).getD ""
  let most_common := group.find? (fun s => s.condition_main == most_common_main)
  { date := d
  , temp_high_c := pyRound1 (qMax temps)
  , temp_high_f := pyRound1 (qMax temps * 9 / 5 + 32)
  , temp_low_c := pyRound1 (qMin temps)
  , temp_low_f := pyRound1 (qMin temps * 9 / 5 + 32)
  , condition := (most_common.map (fun s => s.condition_desc)).getD ""
  , condition_main := (most_common.map (fun s => s.condition_main)).getD ""
  , humidity := (pyRound (qMean (group.map (fun s => s.humidity))) : ℚ)
  , wind_kph := pyRound1 (qMean (group.map (fun s => s.wind_speed)) * 3.6)
  , precip_mm := pyRound1 (qSum (group.map (fun s => s.rain3h + s.snow3h)))
  , precip_probability := (pyRound (qMax (group.map (fun s => s.pop)) * 100) : ℚ)
  , uv_index := 0 }

/-- Embedding of get_multi_day_forecast: group the samples by calendar date,
sort the distinct dates ascending, truncate to num_days, and summarize each
remaining group. -/
def get_multi_day_forecast (ord : List String → List String)
    (samples : List ForecastSample) (num_days : ℕ) : List DaySummary :=
  let sorted_dates := (List.insertionSort (· ≤ ·) (datesOf samples)).take num_days
  sorted_dates.map (fun d => summarize_day ord d (sameDate d samples))

/-- Modelled from the spec: the statistical mode of a condition list with
ties broken by first encountered order, the tie-break the spec ascribes to
the dominant condition computation. -/
def firstEncounteredMode (conds : List String) : String :=
  (maxByKey (fun c => conds.count c) conds.dedup).getD ""

/-- The keyword table of detect_activity, in declaration order. -/
def activity_keywords : List (String × List String) := [
  ("skiing", ["ski", "skiing", "slopes", "powder", "snowboard", "snowboarding", "alpine", "nordic"]),
  ("picnic", ["picnic", "outdoor lunch", "park meal", "bbq", "barbecue", "outdoor dining"]),
  ("hiking", ["hike", "hiking", "trail", "trek", "trekking", "walk", "walking", "rambling", "bushwalking"]),
  ("gardening", ["garden", "gardening", "plant", "planting", "water garden", "yard work", "landscaping", "weeding"]),
  ("beach", ["beach", "swimming", "sunbathing", "seaside", "coastal", "surf", "surfing"]),
  ("cycling", ["cycling", "bike", "biking", "bicycle", "road bike", "mountain bike", "cycle"]),
  ("outdoor", ["outdoor activity", "outside", "outdoor event", "outdoor work", "outdoor fun"]),
  ("sports", ["sport", "sports", "game", "match", "tournament", "athletic", "exercise", "workout", "training"])]

/-- The secondary generic term table of detect_activity, in declaration
order. -/
def generic_mappings : List (String × String) := [
  ("run", "sports"),
  ("running", "sports"),
  ("jog", "sports"),
  ("jogging", "sports"),
  ("play", "sports"),
  ("playing", "outdoor"),
  ("event", "outdoor"),
  ("party", "outdoor"),
  ("festival", "outdoor"),
  ("concert", "outdoor"),
  ("photography", "outdoor"),
  ("fishing", "outdoor"),
  ("camping", "outdoor"),
  ("climbing", "hiking")]

/-- Embedding of detect_activity: first pass over the keyword table in
declaration order, second pass over the generic term table, and the generic
outdoor fallback. -/
def detect_activity (query : String) : String :=
  match activity_keywords.find? (fun ak => ak.2.any (fun k => containsSub k (pyLower query))) with
  | some ak => ak.1
  | none =>
    match generic_mappings.find? (fun tm => containsSub tm.1 (pyLower query)) with
    | some tm => tm.2
    | none => "outdoor"

/-- Index of the first maximal score, the key selection of
max(enumerate(forecast_data), key=lambda x: scores[x[0]]). -/
def argmaxFirst : List ℚ → Option ℕ
  | [] => none
  | s :: rest =>
    some ((rest.foldl (fun acc sc =>
      if acc.2.1 < sc then (acc.2.2, sc, acc.2.2 + 1) else (acc.1, acc.2.1, acc.2.2 + 1))
      ((0 : ℕ), s, (1 : ℕ))).1)

/-- The analysis dictionary returned by analyze_weather_for_activity. -/
structure ActivityAnalysis where
  activity : String
  overall_score : ℚ
  overall_rating : String
  best_day : Option (ℕ × ℚ × String)
  daily_analysis : List (ℕ × ℚ × String × String)
  overall_recommendation : String
deriving DecidableEq, Repr

/-- Registry lookup standing for the membership test
activity_key not in ACTIVITY_PROFILES. -/
def lookupProfile (activity_key : String) : Option ActivityProfile :=
  (ACTIVITY_PROFILES.find? (fun kp => kp.1 == activity_key)).map (fun kp => kp.2)

/-- Embedding of analyze_weather_for_activity: none for an unknown key,
otherwise the per-day scores, ratings and recommendations together with the
average-score summary and the best day. -/
def analyze_weather_for_activity (activity_key : String)
    (forecast_data : List DaySummary) : Option ActivityAnalysis :=
  match lookupProfile activity_key with
  | none => none
  | some profile =>
    let scores := forecast_data.map (fun day => calculate_activity_score day profile)
    let recommendations := forecast_data.map (fun day =>
      generate_day_recommendation day profile (calculate_activity_score day profile))
    let avg_score := if scores.isEmpty then 0 else qSum scores / (scores.length : ℚ)
    some
      { activity := profile.name
      , overall_score := pyRound2 avg_score
      , overall_rating := get_rating_text avg_score
      , best_day := (argmaxFirst scores).bind (fun i =>
          (forecast_data.get? i).map (fun day =>
            (day.date, pyRound2 (scores.getD i 0), get_rating_text (scores.getD i 0))))
      , daily_analysis := (forecast_data.zip (scores.zip recommendations)).map (fun dsr =>
          (dsr.1.date, pyRound2 dsr.2.1, get_rating_text dsr.2.1, dsr.2.2))
      , overall_recommendation := generate_overall_recommendation profile scores recommendations }

/-- Field ranges a day summary has by construction: nonnegative
precipitation amount and a precipitation probability between 0 and 100. -/
def ValidDay (day : DaySummary) : Prop :=
  0 ≤ day.precip_mm ∧ 0 ≤ day.precip_probability ∧ day.precip_probability ≤ 100

/-- Concrete sample with temperature 20.04, not a multiple of one tenth. -/
def mild_sample : ForecastSample :=
  { date := 0, temp := 501/25, condition_main := "Clear", condition_desc := "clear sky"
  , humidity := 50, wind_speed := 3, pop := 0, rain3h := 0, snow3h := 0 }

/-- Concrete sample whose condition is Rain, first in sample order. -/
def rain_sample : ForecastSample :=
  { date := 0, temp := 10, condition_main := "Rain", condition_desc := "light rain"
  , humidity := 50, wind_speed := 3, pop := 0, rain3h := 0, snow3h := 0 }

/-- Concrete sample whose condition is Clear, second in sample order. -/
def clear_sample : ForecastSample :=
  { date := 0, temp := 12, condition_main := "Clear", condition_desc := "clear sky"
  , humidity := 50, wind_speed := 3, pop := 0, rain3h := 0, snow3h := 0 }

/-- A legitimate Python set iteration order that enumerates the set of the
list containing Rain then Clear in the opposite order. -/
def swapOrder : List String → List String :=
  fun l => if l = ["Rain", "Clear"] then ["Clear", "Rain"] else l.dedup

/-- Concrete cloudy day with heavy rain, temperature 20 and light wind. -/
def cloudy_rain_day : DaySummary :=
  { date := 0, temp_high_c := 20, temp_high_f := 68, temp_low_c := 12, temp_low_f := 536/10
  , condition := "scattered clouds", condition_main := "Clouds", humidity := 60
  , wind_kph := 10, precip_mm := 9, precip_probability := 0, uv_index := 0 }

theorem ratFloor_eq (q : ℚ) : ratFloor q = ⌊q⌋ := Rat.floor_def.symm


theorem pyRound_ge (q : ℚ) : q - 1/2 ≤ (pyRound q : ℚ) := by
  simp only [pyRound, ratFloor_eq]
  have h1 : (⌊q⌋ : ℚ) ≤ q := Int.floor_le q
  have h2 : q < ⌊q⌋ + 1 := Int.lt_floor_add_one q
  split_ifs with ha hb hc <;> push_cast <;> linarith

theorem pyRound_le (q : ℚ) : (pyRound q : ℚ) ≤ q + 1/2 := by
  simp only [pyRound, ratFloor_eq]
  have h1 : (⌊q⌋ : ℚ) ≤ q := Int.floor_le q
  have h2 : q < ⌊q⌋ + 1 := Int.lt_floor_add_one q
  split_ifs with ha hb hc <;> push_cast <;> linarith

theorem pyRound1_ge (q : ℚ) : q - 1/20 ≤ pyRound1 q := by
  have := pyRound_ge (q * 10)
  unfold pyRound1
  linarith

theorem pyRound1_le (q : ℚ) : pyRound1 q ≤ q + 1/20 := by
  have := pyRound_le (q * 10)
  unfold pyRound1
  linarith

theorem le_qMax {x : ℚ} : ∀ {l : List ℚ}, x ∈ l → x ≤ qMax l := by
  have key : ∀ (l : List ℚ) (a : ℚ), a ≤ l.foldl max a ∧ ∀ y ∈ l, y ≤ l.foldl max a := by
    intro l
    induction l with
    | nil => intro a; exact ⟨le_refl a, by simp⟩
    | cons b t ih =>
      intro a
      refine ⟨le_trans (le_max_left a b) (ih (max a b)).1, ?_⟩
      intro y hy
      rcases List.mem_cons.mp hy with rfl | hyt
      · exact le_trans (le_max_right a y) (ih (max a y)).1
      · exact (ih (max a b)).2 y hyt
  intro l hx
  match l, hx with
  | a :: t, hx =>
    rcases List.mem_cons.mp hx with rfl | hxt
    · exact (key t x).1
    · exact (key t a).2 x hxt

theorem qMin_le {x : ℚ} : ∀ {l : List ℚ}, x ∈ l → qMin l ≤ x := by
  have key : ∀ (l : List ℚ) (a : ℚ), l.foldl min a ≤ a ∧ ∀ y ∈ l, l.foldl min a ≤ y := by
    intro l
    induction l with
    | nil => intro a; exact ⟨le_refl a, by simp⟩
    | cons b t ih =>
      intro a
      refine ⟨le_trans (ih (min a b)).1 (min_le_left a b), ?_⟩
      intro y hy
      rcases List.mem_cons.mp hy with rfl | hyt
      · exact le_trans (ih (min a y)).1 (min_le_right a y)
      · exact (ih (min a b)).2 y hyt
  intro l hx
  match l, hx with
  | a :: t, hx =>
    rcases List.mem_cons.mp hx with rfl | hxt
    · exact (key t x).1
    · exact (key t a).2 x hxt

theorem leadsList_self_append (n b : List Char) : leadsList n (n ++ b) = true := by
  induction n with
  | nil => rfl
  | cons c t ih => simp [leadsList, ih]

theorem substrList_self_append (n b : List Char) : substrList n (n ++ b) = true := by
  cases n with
  | nil => cases b with
    | nil => rfl
    | cons x t => rfl
  | cons c t => simp [substrList, List.append_eq, leadsList, leadsList_self_append]

theorem substrList_append_left (n h : List Char) (hn : substrList n h = true) :
    ∀ a : List Char, substrList n (a ++ h) = true := by
  intro a
  induction a with
  | nil => simpa using hn
  | cons x t ih => simp [substrList, List.append_eq, ih]

theorem containsSub_append_mid (n a b : String) :
    containsSub n (a ++ (n ++ b)) = true := by
  show substrList n.data (a ++ (n ++ b)).data = true
  have hd : (a ++ (n ++ b)).data = a.data ++ (n.data ++ b.data) := by
    simp [String.data_append]
  rw [hd]
  exact substrList_append_left _ _ (substrList_self_append n.data b.data) a.data

theorem maxByKey_spec (key : String → ℕ) :
    ∀ (l : List String) (x m : String), maxByKey key (x :: l) = some m →
      m ∈ x :: l ∧ ∀ y ∈ x :: l, key y ≤ key m := by
  have step : ∀ (l : List String) (a : String),
      (l.foldl (fun acc y => if key acc < key y then y else acc) a) ∈ a :: l ∧
      key a ≤ key (l.foldl (fun acc y => if key acc < key y then y else acc) a) ∧
      ∀ y ∈ l, key y ≤ key (l.foldl (fun acc y => if key acc < key y then y else acc) a) := by
    intro l
    induction l with
    | nil => intro a; exact ⟨List.mem_singleton.mpr rfl, le_refl _, by simp⟩
    | cons b t ih =>
      intro a
      simp only [List.foldl_cons]
      rcases ih (if key a < key b then b else a) with ⟨hmem, hle, hall⟩
      constructor
      · rcases List.mem_cons.mp hmem with heq | hmt
        · rw [heq]
          split_ifs with hab
          · exact List.mem_cons_of_mem a (List.mem_cons_self b t)
          · exact List.mem_cons_self a (b :: t)
        · exact List.mem_cons_of_mem a (List.mem_cons_of_mem b hmt)
      constructor
      · refine le_trans ?_ hle
        split_ifs with hab
        · exact le_of_lt hab
        · exact le_refl _
      · intro y hy
        rcases List.mem_cons.mp hy with rfl | hyt
        · refine le_trans ?_ hle
          split_ifs with hab
          · exact le_refl _
          · exact le_of_not_lt hab
        · exact hall y hyt
  intro l x m hm
  simp only [maxByKey, Option.some.injEq] at hm
  subst hm
  rcases step l x with ⟨hmem, hle, hall⟩
  refine ⟨hmem, ?_⟩
  intro y hy
  rcases List.mem_cons.mp hy with rfl | hyt
  · exact hle
  · exact hall y hyt

theorem dedupOrder_pySetOrder : PySetOrder dedupOrder := by
  intro l
  exact ⟨l.nodup_dedup, fun x => List.mem_dedup⟩

theorem detect_activity_mem_keys (q : String) :
    detect_activity q ∈ ACTIVITY_PROFILES.map Prod.fst := by
  unfold detect_activity
  cases hf : activity_keywords.find? (fun ak => ak.2.any fun k => containsSub k (pyLower q)) with
  | some ak =>
    have hmem := List.mem_of_find?_eq_some hf
    fin_cases hmem <;> simp [ACTIVITY_PROFILES]
  | none =>
    cases hg : generic_mappings.find? (fun tm => containsSub tm.1 (pyLower q)) with
    | some tm =>
      have hmem := List.mem_of_find?_eq_some hg
      fin_cases hmem <;> simp [ACTIVITY_PROFILES]
    | none => decide

theorem lookupProfile_isSome_of_mem {k : String}
    (hk : k ∈ ACTIVITY_PROFILES.map Prod.fst) : (lookupProfile k).isSome = true := by
  unfold lookupProfile
  rcases List.mem_map.mp hk with ⟨kp, hin, hEq⟩
  have hex : ∃ x, x ∈ ACTIVITY_PROFILES ∧ (fun kp => kp.1 == k) x = true :=
    ⟨kp, hin, by simp [hEq]⟩
  obtain ⟨x, hx⟩ := Option.isSome_iff_exists.mp (List.find?_isSome.mpr hex)
  rw [hx]
  rfl

/-- C2: get_rating_text partitions the score interval from 0 to 100 into the
five bands with inclusive lower bounds at 80, 60, 40 and 20, so each score
receives exactly one rating; in particular 80 maps to Excellent and 79.9
maps to Good. -/
theorem C2_rating_bands (s : ℚ) (h0 : 0 ≤ s) (h1 : s ≤ 100) :
    (get_rating_text s = "Excellent" ↔ 80 ≤ s) ∧
    (get_rating_text s = "Good" ↔ 60 ≤ s ∧ s < 80) ∧
    (get_rating_text s = "Fair" ↔ 40 ≤ s ∧ s < 60) ∧
    (get_rating_text s = "Poor" ↔ 20 ≤ s ∧ s < 40) ∧
    (get_rating_text s = "Not Recommended" ↔ s < 20) ∧
    get_rating_text 80 = "Excellent" ∧ get_rating_text (799/10) = "Good" := by
  refine ⟨?_, ?_, ?_, ?_, ?_, by norm_num [get_rating_text], by norm_num [get_rating_text]⟩ <;>
    unfold get_rating_text <;>
    split_ifs with ha hb hc hd <;>
    simp <;>
    first
      | linarith
      | (intro h; linarith)
      | (intro h1 h2; linarith)
      | exact ⟨by linarith, by linarith⟩

/-- C2 witness at the concrete score 50. -/
theorem C2_rating_bands_witness :
    (0 ≤ (50 : ℚ)) ∧ ((50 : ℚ) ≤ 100) ∧
    ((get_rating_text 50 = "Excellent" ↔ 80 ≤ (50 : ℚ)) ∧
     (get_rating_text 50 = "Good" ↔ 60 ≤ (50 : ℚ) ∧ (50 : ℚ) < 80) ∧
     (get_rating_text 50 = "Fair" ↔ 40 ≤ (50 : ℚ) ∧ (50 : ℚ) < 60) ∧
     (get_rating_text 50 = "Poor" ↔ 20 ≤ (50 : ℚ) ∧ (50 : ℚ) < 40) ∧
     (get_rating_text 50 = "Not Recommended" ↔ (50 : ℚ) < 20) ∧
     get_rating_text 80 = "Excellent" ∧ get_rating_text (799/10) = "Good") :=
  ⟨by norm_num, by norm_num, C2_rating_bands 50 (by norm_num) (by norm_num)⟩

/-- C7: detect_activity resolves the surfing query to beach through the
keyword table, resolves the unmatched basket weaving query to the generic
outdoor fallback, and for every query returns a key of the profile
registry, never failing. -/
theorem C7_activity_resolution :
    detect_activity "let\x27s go surfing" = "beach" ∧
    detect_activity "underwater basket weaving" = "outdoor" ∧
    ∀ q : String, detect_activity q ∈ ACTIVITY_PROFILES.map Prod.fst :=
  ⟨by decide, by decide, detect_activity_mem_keys⟩

/-- C9: every activity key detect_activity can return is a registry key, so
analyze_weather_for_activity applied to a detected key always returns a
result and the analysis_failed branch of analyze_activity is unreachable. -/
theorem C9_analysis_total :
    (∀ q : String, detect_activity q ∈ ACTIVITY_PROFILES.map Prod.fst) ∧
    ∀ (q : String) (days : List DaySummary),
      (analyze_weather_for_activity (detect_activity q) days).isSome = true := by
  refine ⟨detect_activity_mem_keys, ?_⟩
  intro q days
  have h := lookupProfile_isSome_of_mem (detect_activity_mem_keys q)
  unfold analyze_weather_for_activity
  cases hl : lookupProfile (detect_activity q) with
  | none => rw [hl] at h; simp at h
  | some p => simp

theorem calculate_wind_score_cases (p : ActivityProfile)
    (h : 0 < p.max_wind_kph.getD 50) (w : ℚ) :
    (w ≤ p.max_wind_kph.getD 50 * 0.5 → calculate_wind_score w p = 1) ∧
    (p.max_wind_kph.getD 50 * 0.5 < w → w ≤ p.max_wind_kph.getD 50 →
      calculate_wind_score w p =
        1 - (w - p.max_wind_kph.getD 50 * 0.5) / (p.max_wind_kph.getD 50 * 0.5) * 0.3 ∧
      0.7 ≤ calculate_wind_score w p ∧ calculate_wind_score w p ≤ 1) ∧
    (p.max_wind_kph.getD 50 < w →
      calculate_wind_score w p =
        max 0 (0.7 - (w - p.max_wind_kph.getD 50) / p.max_wind_kph.getD 50) ∧
      calculate_wind_score w p < 0.7) ∧
    (∀ w2 : ℚ, p.max_wind_kph.getD 50 < w → w ≤ w2 →
      calculate_wind_score w2 p ≤ calculate_wind_score w p) := by
  set m := p.max_wind_kph.getD 50 with hm
  have hm2 : 0 < m * 0.5 := by positivity
  refine ⟨?_, ?_, ?_, ?_⟩
  · intro hw
    simp only [calculate_wind_score, ← hm]
    rw [if_pos hw]
    norm_num
  · intro hlo hhi
    have heq : calculate_wind_score w p = 1 - (w - m * 0.5) / (m * 0.5) * 0.3 := by
      simp only [calculate_wind_score, ← hm]
      rw [if_neg (by linarith), if_pos hhi]
      norm_num
    refine ⟨heq, ?_, ?_⟩
    · rw [heq]
      have hd : (w - m * 0.5) / (m * 0.5) ≤ 1 := by
        rw [div_le_one hm2]
        linarith
      linarith
    · rw [heq]
      have hd : 0 ≤ (w - m * 0.5) / (m * 0.5) := div_nonneg (by linarith) (le_of_lt hm2)
      linarith
  · intro hgt
    have heq : calculate_wind_score w p = max 0 (0.7 - (w - m) / m) := by
      simp only [calculate_wind_score, ← hm]
      rw [if_neg (by linarith), if_neg (by linarith)]
    refine ⟨heq, ?_⟩
    rw [heq]
    have hd : 0 < (w - m) / m := div_pos (by linarith) h
    apply max_lt (by norm_num)
    linarith
  · intro w2 hgt hle
    have hgt2 : m < w2 := lt_of_lt_of_le hgt hle
    have heq1 : calculate_wind_score w p = max 0 (0.7 - (w - m) / m) := by
      simp only [calculate_wind_score, ← hm]
      rw [if_neg (by linarith), if_neg (by linarith)]
    have heq2 : calculate_wind_score w2 p = max 0 (0.7 - (w2 - m) / m) := by
      simp only [calculate_wind_score, ← hm]
      rw [if_neg (by linarith), if_neg (by linarith)]
    rw [heq1, heq2]
    apply max_le_max (le_refl 0)
    have hnn : 0 ≤ (w2 - w) / m := div_nonneg (by linarith) (le_of_lt h)
    have hsplit : (w2 - w) / m = (w2 - m) / m - (w - m) / m := by ring
    linarith

/-- C6: for every registry profile, the wind sub-score is 1 up to half the
maximal wind, declines linearly with a penalty of at most 30 percent between
half the maximum and the maximum, declines linearly from 0.7 floored at 0
beyond the maximum, and increasing the wind beyond the maximum never
increases the score. -/
theorem C6_wind_shape (kp : String × ActivityProfile) (hkp : kp ∈ ACTIVITY_PROFILES) (w : ℚ) :
    (w ≤ kp.2.max_wind_kph.getD 50 * 0.5 → calculate_wind_score w kp.2 = 1) ∧
    (kp.2.max_wind_kph.getD 50 * 0.5 < w → w ≤ kp.2.max_wind_kph.getD 50 →
      calculate_wind_score w kp.2 =
        1 - (w - kp.2.max_wind_kph.getD 50 * 0.5) / (kp.2.max_wind_kph.getD 50 * 0.5) * 0.3 ∧
      0.7 ≤ calculate_wind_score w kp.2 ∧ calculate_wind_score w kp.2 ≤ 1) ∧
    (kp.2.max_wind_kph.getD 50 < w →
      calculate_wind_score w kp.2 =
        max 0 (0.7 - (w - kp.2.max_wind_kph.getD 50) / kp.2.max_wind_kph.getD 50) ∧
      calculate_wind_score w kp.2 < 0.7) ∧
    (∀ w2 : ℚ, kp.2.max_wind_kph.getD 50 < w → w ≤ w2 →
      calculate_wind_score w2 kp.2 ≤ calculate_wind_score w kp.2) := by
  apply calculate_wind_score_cases
  simp only [ACTIVITY_PROFILES, List.mem_cons, List.not_mem_nil, or_false] at hkp
  rcases hkp with rfl | rfl | rfl | rfl | rfl | rfl | rfl | rfl <;>
    norm_num [skiing_profile, picnic_profile, hiking_profile, gardening_profile,
      beach_profile, cycling_profile, outdoor_profile, sports_profile]

/-- C6 witness: the hiking profile at winds 20, 40 and 60. -/
theorem C6_wind_shape_witness :
    (("hiking", hiking_profile) ∈ ACTIVITY_PROFILES) ∧
    calculate_wind_score 20 hiking_profile = 1 ∧
    (calculate_wind_score 40 hiking_profile =
      1 - ((40 : ℚ) - hiking_profile.max_wind_kph.getD 50 * 0.5) /
        (hiking_profile.max_wind_kph.getD 50 * 0.5) * 0.3 ∧
      0.7 ≤ calculate_wind_score 40 hiking_profile ∧
      calculate_wind_score 40 hiking_profile ≤ 1) ∧
    calculate_wind_score 70 hiking_profile ≤ calculate_wind_score 60 hiking_profile := by
  have hmem : ("hiking", hiking_profile) ∈ ACTIVITY_PROFILES := by
    simp [ACTIVITY_PROFILES]
  refine ⟨hmem, ?_, ?_, ?_⟩
  · exact (C6_wind_shape _ hmem 20).1 (by norm_num [hiking_profile])
  · exact (C6_wind_shape _ hmem 40).2.1 (by norm_num [hiking_profile]) (by norm_num [hiking_profile])
  · exact (C6_wind_shape _ hmem 60).2.2.2 70 (by norm_num [hiking_profile]) (by norm_num)

/-- C10: for every profile whose ideal range has positive width, the
temperature score is exactly 0.8 at the lower edge of the range, while a
temperature epsilon below the edge, farther from the center of the range,
scores 1 minus epsilon divided by 20, which exceeds 0.8 for epsilon below 4;
so the score is discontinuous at the boundary and not monotone in the
distance from the center. -/
theorem C10_temperature_edge (p : ActivityProfile)
    (h : p.ideal_temp_range.1 < p.ideal_temp_range.2) :
    calculate_temperature_score p.ideal_temp_range.1 p = 0.8 ∧
    ∀ ε : ℚ, 0 < ε → ε < 4 →
      calculate_temperature_score (p.ideal_temp_range.1 - ε) p = 1 - ε / 20 ∧
      calculate_temperature_score p.ideal_temp_range.1 p <
        calculate_temperature_score (p.ideal_temp_range.1 - ε) p ∧
      |p.ideal_temp_range.1 - (p.ideal_temp_range.1 + p.ideal_temp_range.2) / 2| <
        |p.ideal_temp_range.1 - ε - (p.ideal_temp_range.1 + p.ideal_temp_range.2) / 2| := by
  set mn := p.ideal_temp_range.1 with hmn
  set mx := p.ideal_temp_range.2 with hmx
  have hedge : calculate_temperature_score mn p = 0.8 := by
    simp only [calculate_temperature_score, ← hmn, ← hmx]
    rw [if_pos ⟨le_refl mn, le_of_lt h⟩]
    rw [abs_of_nonpos (by linarith)]
    have hrw : -(mn - (mn + mx) / 2) = (mx - mn) / 2 := by ring
    rw [hrw, div_self (by linarith)]
    norm_num
  refine ⟨hedge, ?_⟩
  intro ε hε hε4
  have hout : calculate_temperature_score (mn - ε) p = 1 - ε / 20 := by
    simp only [calculate_temperature_score, ← hmn, ← hmx]
    rw [if_neg (by rintro ⟨h1, h2⟩; linarith), if_pos (by linarith)]
    have hrw : mn - (mn - ε) = ε := by ring
    rw [hrw]
    rw [max_eq_right (by linarith)]
    norm_num
  refine ⟨hout, ?_, ?_⟩
  · rw [hedge, hout]
    linarith
  · rw [abs_of_nonpos (by linarith), abs_of_nonpos (by linarith)]
    linarith

/-- C10 witness: the outdoor profile with range from 5 to 30 at temperatures
5 and 4. -/
theorem C10_temperature_edge_witness :
    (outdoor_profile.ideal_temp_range.1 < outdoor_profile.ideal_temp_range.2) ∧
    calculate_temperature_score outdoor_profile.ideal_temp_range.1 outdoor_profile = 0.8 ∧
    calculate_temperature_score (outdoor_profile.ideal_temp_range.1 - 1) outdoor_profile
      = 1 - 1 / 20 ∧
    calculate_temperature_score outdoor_profile.ideal_temp_range.1 outdoor_profile <
      calculate_temperature_score (outdoor_profile.ideal_temp_range.1 - 1) outdoor_profile := by
  have hlt : outdoor_profile.ideal_temp_range.1 < outdoor_profile.ideal_temp_range.2 := by
    norm_num [outdoor_profile]
  refine ⟨hlt, (C10_temperature_edge outdoor_profile hlt).1, ?_, ?_⟩
  · exact ((C10_temperature_edge outdoor_profile hlt).2 1 (by norm_num) (by norm_num)).1
  · exact ((C10_temperature_edge outdoor_profile hlt).2 1 (by norm_num) (by norm_num)).2.1

theorem calculate_temperature_score_bounds (p : ActivityProfile)
    (h : p.ideal_temp_range.1 < p.ideal_temp_range.2) (t : ℚ) :
    0 ≤ calculate_temperature_score t p ∧ calculate_temperature_score t p ≤ 1 := by
  set mn := p.ideal_temp_range.1 with hmn
  set mx := p.ideal_temp_range.2 with hmx
  simp only [calculate_temperature_score, ← hmn, ← hmx]
  split_ifs with h1 h2
  · have hc : |t - (mn + mx) / 2| ≤ (mx - mn) / 2 :=
      abs_le.mpr ⟨by linarith [h1.1, h1.2], by linarith [h1.1, h1.2]⟩
    have hpos : 0 < (mx - mn) / 2 := by linarith
    have hq0 : 0 ≤ |t - (mn + mx) / 2| / ((mx - mn) / 2) :=
      div_nonneg (abs_nonneg _) (le_of_lt hpos)
    have hq1 : |t - (mn + mx) / 2| / ((mx - mn) / 2) ≤ 1 := (div_le_one hpos).mpr hc
    constructor <;> linarith
  · have hd : 0 ≤ (mn - t) / 20 := div_nonneg (by linarith) (by norm_num)
    constructor
    · exact le_max_left 0 _
    · apply max_le (by norm_num)
      linarith
  · have hge : mn ≤ t := le_of_not_lt h2
    have hgt : mx < t := by
      by_contra hle
      push_neg at hle
      exact h1 ⟨hge, hle⟩
    have hd : 0 ≤ (t - mx) / 25 := div_nonneg (by linarith) (by norm_num)
    constructor
    · exact le_max_left 0 _
    · apply max_le (by norm_num)
      linarith

theorem calculate_wind_score_bounds (p : ActivityProfile)
    (h : 0 < p.max_wind_kph.getD 50) (w : ℚ) :
    0 ≤ calculate_wind_score w p ∧ calculate_wind_score w p ≤ 1 := by
  set m := p.max_wind_kph.getD 50 with hm
  have hm2 : 0 < m * 0.5 := by positivity
  simp only [calculate_wind_score, ← hm]
  split_ifs with h1 h2
  · norm_num
  · have hd0 : 0 ≤ (w - m * 0.5) / (m * 0.5) := div_nonneg (by linarith) (le_of_lt hm2)
    have hd1 : (w - m * 0.5) / (m * 0.5) ≤ 1 := by
      rw [div_le_one hm2]
      linarith
    constructor <;> linarith
  · have hd : 0 ≤ (w - m) / m := div_nonneg (by linarith) (le_of_lt h)
    constructor
    · exact le_max_left 0 _
    · apply max_le (by norm_num)
      linarith

theorem calculate_precipitation_score_bounds (p : ActivityProfile) (day : DaySummary)
    (hp : 0 ≤ day.precip_mm) (h0 : 0 ≤ day.precip_probability)
    (h100 : day.precip_probability ≤ 100) :
    0 ≤ calculate_precipitation_score day p ∧ calculate_precipitation_score day p ≤ 1 := by
  have hdp : 0 ≤ day.precip_mm / 10 := div_nonneg hp (by norm_num)
  have hpr0 : 0 ≤ day.precip_probability / 100 := div_nonneg h0 (by norm_num)
  have hpr1 : day.precip_probability / 100 ≤ 1 := by
    rw [div_le_one (by norm_num)]
    exact h100
  simp only [calculate_precipitation_score]
  split_ifs with h1 h2 h3 h4 h5 h6
  · constructor
    · exact le_min (by norm_num) (by linarith)
    · exact le_trans (min_le_left _ _) (by norm_num)
  · constructor <;> linarith
  · have hmin0 : 0 ≤ min (0.2 : ℚ) (day.precip_mm / 10) := le_min (by norm_num) hdp
    have hmin2 : min (0.2 : ℚ) (day.precip_mm / 10) ≤ 0.2 := min_le_left _ _
    constructor <;> linarith
  · constructor <;> norm_num
  · constructor
    · exact le_trans (by norm_num) (le_max_left 0.1 _)
    · apply max_le (by norm_num)
      have hpen : 0 ≤ day.precip_probability / 100 * 0.2 := by positivity
      linarith
  · constructor
    · exact le_trans (by norm_num) (le_max_left 0.1 _)
    · apply max_le (by norm_num)
      have hpen : 0 ≤ day.precip_probability / 100 * 0.2 := by positivity
      linarith
  · constructor
    · exact le_trans (by norm_num) (le_max_left 0.1 _)
    · apply max_le (by norm_num)
      have hpen : 0 ≤ day.precip_probability / 100 * 0.2 := by positivity
      have hbase : max (0.1 : ℚ) (0.6 - (day.precip_mm - p.max_precip_rain.getD 2) / 15) ≤ 0.9 := by
        apply max_le (by norm_num)
        have : 0 ≤ (day.precip_mm - p.max_precip_rain.getD 2) / 15 :=
          div_nonneg (by linarith [lt_of_not_le h5]) (by norm_num)
        linarith
      linarith

theorem calculate_condition_score_bounds (c : String) (p : ActivityProfile) :
    0 ≤ calculate_condition_score c p ∧ calculate_condition_score c p ≤ 1 := by
  unfold calculate_condition_score
  split_ifs <;> norm_num

theorem calculate_activity_score_bounds (day : DaySummary) (p : ActivityProfile) :
    0 ≤ calculate_activity_score day p ∧ calculate_activity_score day p ≤ 100 := by
  simp only [calculate_activity_score]
  constructor
  · exact le_max_left 0 _
  · exact max_le (by norm_num) (min_le_left 100 _)

/-- C1: each registry profile has factor weights summing exactly to 1; for
every day summary with in-range precipitation fields all four sub-scores lie
between 0 and 1; and the final activity score always lies between 0 and 100. -/
theorem C1_scorer_bounds (kp : String × ActivityProfile) (hkp : kp ∈ ACTIVITY_PROFILES) :
    kp.2.factors.temperature + kp.2.factors.wind + kp.2.factors.precipitation +
      kp.2.factors.conditions = 1 ∧
    (∀ day : DaySummary, ValidDay day →
      (0 ≤ calculate_temperature_score day.temp_high_c kp.2 ∧
        calculate_temperature_score day.temp_high_c kp.2 ≤ 1) ∧
      (0 ≤ calculate_wind_score day.wind_kph kp.2 ∧ calculate_wind_score day.wind_kph kp.2 ≤ 1) ∧
      (0 ≤ calculate_precipitation_score day kp.2 ∧ calculate_precipitation_score day kp.2 ≤ 1) ∧
      (0 ≤ calculate_condition_score day.condition_main kp.2 ∧
        calculate_condition_score day.condition_main kp.2 ≤ 1)) ∧
    (∀ day : DaySummary,
      0 ≤ calculate_activity_score day kp.2 ∧ calculate_activity_score day kp.2 ≤ 100) := by
  simp only [ACTIVITY_PROFILES, List.mem_cons, List.not_mem_nil, or_false] at hkp
  rcases hkp with rfl | rfl | rfl | rfl | rfl | rfl | rfl | rfl <;>
    exact ⟨by norm_num [skiing_profile, picnic_profile, hiking_profile, gardening_profile,
        beach_profile, cycling_profile, outdoor_profile, sports_profile],
      fun day hday =>
        ⟨calculate_temperature_score_bounds _
            (by norm_num [skiing_profile, picnic_profile, hiking_profile, gardening_profile,
              beach_profile, cycling_profile, outdoor_profile, sports_profile]) _,
         calculate_wind_score_bounds _
            (by norm_num [skiing_profile, picnic_profile, hiking_profile, gardening_profile,
              beach_profile, cycling_profile, outdoor_profile, sports_profile]) _,
         calculate_precipitation_score_bounds _ _ hday.1 hday.2.1 hday.2.2,
         calculate_condition_score_bounds _ _⟩,
      fun day => calculate_activity_score_bounds _ _⟩

/-- C1 witness: the hiking profile and a clear dry day. -/
theorem C1_scorer_bounds_witness :
    (("hiking", hiking_profile) ∈ ACTIVITY_PROFILES) ∧
    hiking_profile.factors.temperature + hiking_profile.factors.wind +
      hiking_profile.factors.precipitation + hiking_profile.factors.conditions = 1 ∧
    ValidDay (⟨3, 22, 716/10, 15, 59, "clear sky", "Clear", 50, 10, 0, 0, 0⟩ : DaySummary) ∧
    (0 ≤ calculate_precipitation_score
        (⟨3, 22, 716/10, 15, 59, "clear sky", "Clear", 50, 10, 0, 0, 0⟩ : DaySummary)
        hiking_profile ∧
      calculate_precipitation_score
        (⟨3, 22, 716/10, 15, 59, "clear sky", "Clear", 50, 10, 0, 0, 0⟩ : DaySummary)
        hiking_profile ≤ 1) := by
  have hmem : ("hiking", hiking_profile) ∈ ACTIVITY_PROFILES := by simp [ACTIVITY_PROFILES]
  have hvd : ValidDay (⟨3, 22, 716/10, 15, 59, "clear sky", "Clear", 50, 10, 0, 0, 0⟩ : DaySummary) := by
    refine ⟨by norm_num, by norm_num, by norm_num⟩
  exact ⟨hmem, (C1_scorer_bounds _ hmem).1, hvd,
    ((C1_scorer_bounds _ hmem).2.1 _ hvd).2.2.1⟩

/-- C3: for every sample list and requested day count of at least one, the
aggregator returns exactly the minimum of the number of distinct sample
dates and the requested count, in strictly ascending date order, and when
fewer dates exist than requested it returns all of them. -/
theorem C3_aggregation (ord : List String → List String) (samples : List ForecastSample)
    (num_days : ℕ) (h : 1 ≤ num_days) :
    (get_multi_day_forecast ord samples num_days).length =
      min (datesOf samples).length num_days ∧
    ((datesOf samples).length < num_days →
      (get_multi_day_forecast ord samples num_days).length = (datesOf samples).length) ∧
    ((get_multi_day_forecast ord samples num_days).map (fun o => o.date)).Pairwise (· < ·) := by
  have hperm : (List.insertionSort (· ≤ ·) (datesOf samples)).length = (datesOf samples).length :=
    (List.perm_insertionSort _ _).length_eq
  have hlen : (get_multi_day_forecast ord samples num_days).length =
      min (datesOf samples).length num_days := by
    simp only [get_multi_day_forecast, List.length_map, List.length_take, hperm, Nat.min_comm]
  refine ⟨hlen, fun hlt => by rw [hlen]; omega, ?_⟩
  have hmapdate : (get_multi_day_forecast ord samples num_days).map (fun o => o.date) =
      (List.insertionSort (· ≤ ·) (datesOf samples)).take num_days := by
    simp only [get_multi_day_forecast, List.map_map]
    have hfun : ((fun o : DaySummary => o.date) ∘
        fun d => summarize_day ord d (sameDate d samples)) = id := funext fun d => rfl
    rw [hfun, List.map_id]
  rw [hmapdate]
  have hsorted : (List.insertionSort (· ≤ ·) (datesOf samples)).Sorted (· ≤ ·) :=
    List.sorted_insertionSort _ _
  have hnodup : (List.insertionSort (· ≤ ·) (datesOf samples)).Nodup :=
    ((List.perm_insertionSort _ _).nodup_iff).mpr (List.nodup_dedup _)
  have hstrict : (List.insertionSort (· ≤ ·) (datesOf samples)).Pairwise (· < ·) :=
    (hsorted.and hnodup).imp (fun hab => lt_of_le_of_ne hab.1 hab.2)
  exact List.Pairwise.sublist (List.take_sublist _ _) hstrict

/-- C3 witness: two samples on dates 5 and 3 with five requested days. -/
theorem C3_aggregation_witness :
    1 ≤ 5 ∧
    ((get_multi_day_forecast dedupOrder
        [{ date := 5, temp := 20, condition_main := "Clear", condition_desc := "clear sky"
         , humidity := 50, wind_speed := 3, pop := 0, rain3h := 0, snow3h := 0 },
         { date := 3, temp := 18, condition_main := "Clouds", condition_desc := "few clouds"
         , humidity := 50, wind_speed := 3, pop := 0, rain3h := 0, snow3h := 0 }] 5).length =
      min (datesOf
        [{ date := 5, temp := 20, condition_main := "Clear", condition_desc := "clear sky"
         , humidity := 50, wind_speed := 3, pop := 0, rain3h := 0, snow3h := 0 },
         { date := 3, temp := 18, condition_main := "Clouds", condition_desc := "few clouds"
         , humidity := 50, wind_speed := 3, pop := 0, rain3h := 0, snow3h := 0 }]).length 5 ∧
    ((datesOf
        [{ date := 5, temp := 20, condition_main := "Clear", condition_desc := "clear sky"
         , humidity := 50, wind_speed := 3, pop := 0, rain3h := 0, snow3h := 0 },
         { date := 3, temp := 18, condition_main := "Clouds", condition_desc := "few clouds"
         , humidity := 50, wind_speed := 3, pop := 0, rain3h := 0, snow3h := 0 }]).length < 5 →
      (get_multi_day_forecast dedupOrder
        [{ date := 5, temp := 20, condition_main := "Clear", condition_desc := "clear sky"
         , humidity := 50, wind_speed := 3, pop := 0, rain3h := 0, snow3h := 0 },
         { date := 3, temp := 18, condition_main := "Clouds", condition_desc := "few clouds"
         , humidity := 50, wind_speed := 3, pop := 0, rain3h := 0, snow3h := 0 }] 5).length =
      (datesOf
        [{ date := 5, temp := 20, condition_main := "Clear", condition_desc := "clear sky"
         , humidity := 50, wind_speed := 3, pop := 0, rain3h := 0, snow3h := 0 },
         { date := 3, temp := 18, condition_main := "Clouds", condition_desc := "few clouds"
         , humidity := 50, wind_speed := 3, pop := 0, rain3h := 0, snow3h := 0 }]).length) ∧
    ((get_multi_day_forecast dedupOrder
        [{ date := 5, temp := 20, condition_main := "Clear", condition_desc := "clear sky"
         , humidity := 50, wind_speed := 3, pop := 0, rain3h := 0, snow3h := 0 },
         { date := 3, temp := 18, condition_main := "Clouds", condition_desc := "few clouds"
         , humidity := 50, wind_speed := 3, pop := 0, rain3h := 0, snow3h := 0 }] 5).map
      (fun o => o.date)).Pairwise (· < ·)) :=
  ⟨by norm_num, C3_aggregation dedupOrder _ 5 (by norm_num)⟩

/-- C4 counterexample: a single sample with temperature 20.04 produces a day
summary whose published high is round(20.04, 1) = 20.0, which is strictly
below the temperature of the contributing sample, refuting the claim that
temp_high_c is at least every contributing temperature. -/
theorem C4_counterexample :
    mild_sample.date = 0 ∧ mild_sample.temp = 501/25 ∧
    (get_multi_day_forecast dedupOrder [mild_sample] 1).map
      (fun o => (o.date, o.temp_high_c)) = [(0, 20)] ∧
    (20 : ℚ) < 501/25 := by
  refine ⟨rfl, rfl, ?_, by norm_num⟩
  have hday : get_multi_day_forecast dedupOrder [mild_sample] 1 =
      [summarize_day dedupOrder 0 [mild_sample]] := by
    simp [get_multi_day_forecast, datesOf, sameDate, mild_sample,
      List.insertionSort, List.orderedInsert]
  rw [hday]
  simp only [List.map_cons, List.map_nil]
  have hhigh : (summarize_day dedupOrder 0 [mild_sample]).temp_high_c = 20 := by
    show pyRound1 (qMax ([mild_sample].map (fun s => s.temp))) = 20
    norm_num [mild_sample, qMax, pyRound1, pyRound, ratFloor_eq]
  have hdate : (summarize_day dedupOrder 0 [mild_sample]).date = 0 := rfl
  simp [hdate, hhigh]

/-- C4 as amended: the unrounded per-date maximum and minimum bound every
contributing temperature, and because the published high and low are those
extremes rounded to one decimal they are within one twentieth of them: for
every output day and every sample of its date, temp_high_c is at least the
sample temperature minus 1/20 and temp_low_c is at most the sample
temperature plus 1/20. -/
theorem C4_highlow_bounds (ord : List String → List String)
    (samples : List ForecastSample) (num_days : ℕ) :
    ∀ o ∈ get_multi_day_forecast ord samples num_days, ∀ s ∈ samples, s.date = o.date →
      s.temp - 1/20 ≤ o.temp_high_c ∧ o.temp_low_c ≤ s.temp + 1/20 := by
  intro o ho s hs hdate
  simp only [get_multi_day_forecast, List.mem_map] at ho
  obtain ⟨d, hd, rfl⟩ := ho
  have hdd : s.date = d := hdate
  have hsin : s ∈ sameDate d samples := by
    simp only [sameDate, List.mem_filter]
    exact ⟨hs, by simp [hdd]⟩
  have htemp : s.temp ∈ (sameDate d samples).map (fun x => x.temp) :=
    List.mem_map.mpr ⟨s, hsin, rfl⟩
  have hmax := le_qMax htemp
  have hmin := qMin_le htemp
  constructor
  · have hr := pyRound1_ge (qMax ((sameDate d samples).map (fun x => x.temp)))
    show s.temp - 1/20 ≤ pyRound1 (qMax ((sameDate d samples).map (fun x => x.temp)))
    linarith
  · have hr := pyRound1_le (qMin ((sameDate d samples).map (fun x => x.temp)))
    show pyRound1 (qMin ((sameDate d samples).map (fun x => x.temp))) ≤ s.temp + 1/20
    linarith

/-- C4 witness: the amended bound at the single sample of the
counterexample date. -/
theorem C4_highlow_bounds_witness :
    (summarize_day dedupOrder 0 (sameDate 0 [mild_sample]) ∈
      get_multi_day_forecast dedupOrder [mild_sample] 1) ∧
    (mild_sample ∈ [mild_sample]) ∧
    mild_sample.temp - 1/20 ≤
      (summarize_day dedupOrder 0 (sameDate 0 [mild_sample])).temp_high_c ∧
    (summarize_day dedupOrder 0 (sameDate 0 [mild_sample])).temp_low_c ≤
      mild_sample.temp + 1/20 := by
  have hmem : summarize_day dedupOrder 0 (sameDate 0 [mild_sample]) ∈
      get_multi_day_forecast dedupOrder [mild_sample] 1 := by
    have hday : get_multi_day_forecast dedupOrder [mild_sample] 1 =
        [summarize_day dedupOrder 0 (sameDate 0 [mild_sample])] := by
      simp [get_multi_day_forecast, datesOf, mild_sample,
        List.insertionSort, List.orderedInsert]
    rw [hday]
    exact List.mem_singleton.mpr rfl
  have hs : mild_sample ∈ [mild_sample] := List.mem_singleton.mpr rfl
  have h := C4_highlow_bounds dedupOrder [mild_sample] 1 _ hmem mild_sample hs rfl
  exact ⟨hmem, hs, h.1, h.2⟩

/-- C8 as amended: the recommendation text cites the main concern exactly in
the two bands below 60 (the Good band between 60 and 80 does not cite it);
the text is selected by the bands at 80, 60 and 40, with the Poor and
Not-Recommended rating bands sharing one text; and the main concern checks
cold temperature, hot temperature, precipitation and wind in that fixed
priority order. -/
theorem C8_day_recommendation (day : DaySummary) (profile : ActivityProfile) (score : ℚ) :
    (score < 60 →
      containsSub (get_main_concern day profile)
        (generate_day_recommendation day profile score) = true) ∧
    (80 ≤ score → leadsList "Excellent conditions! ".data
      (generate_day_recommendation day profile score).data = true) ∧
    (60 ≤ score → score < 80 → leadsList "Good conditions. ".data
      (generate_day_recommendation day profile score).data = true) ∧
    (40 ≤ score → score < 60 → leadsList "Fair conditions. Watch for ".data
      (generate_day_recommendation day profile score).data = true) ∧
    (score < 40 → leadsList "Not recommended. ".data
      (generate_day_recommendation day profile score).data = true) ∧
    (day.temp_high_c < profile.ideal_temp_range.1 →
      get_main_concern day profile = "too cold (" ++ pyFloat day.temp_high_c ++ "°C)") ∧
    (profile.ideal_temp_range.1 ≤ day.temp_high_c →
      profile.ideal_temp_range.2 < day.temp_high_c →
      get_main_concern day profile = "too hot (" ++ pyFloat day.temp_high_c ++ "°C)") ∧
    (profile.ideal_temp_range.1 ≤ day.temp_high_c →
      day.temp_high_c ≤ profile.ideal_temp_range.2 →
      profile.max_precip_rain.getD 0 < day.precip_mm →
      get_main_concern day profile = "rain expected (" ++ pyFloat day.precip_mm ++ "mm)") ∧
    (profile.ideal_temp_range.1 ≤ day.temp_high_c →
      day.temp_high_c ≤ profile.ideal_temp_range.2 →
      day.precip_mm ≤ profile.max_precip_rain.getD 0 →
      profile.max_wind_kph.getD 50 < day.wind_kph →
      get_main_concern day profile = "too windy (" ++ pyFloat day.wind_kph ++ " km/h)") := by
  refine ⟨?_, ?_, ?_, ?_, ?_, ?_, ?_, ?_, ?_⟩
  · intro h60
    simp only [generate_day_recommendation]
    rw [if_neg (by intro h; linarith), if_neg (by intro h; linarith)]
    split_ifs with h40
    · simp only [containsSub, String.data_append, List.append_assoc]
      exact substrList_append_left _ _ (substrList_self_append _ _) _
    · simp only [containsSub, String.data_append, List.append_assoc]
      exact substrList_append_left _ _ (substrList_self_append _ _) _
  · intro h80
    simp only [generate_day_recommendation]
    rw [if_pos (by linarith)]
    simp only [String.data_append, List.append_assoc]
    exact leadsList_self_append _ _
  · intro h60 h80
    simp only [generate_day_recommendation]
    rw [if_neg (by intro h; linarith), if_pos (by linarith)]
    simp only [String.data_append, List.append_assoc]
    exact leadsList_self_append _ _
  · intro h40 h60
    simp only [generate_day_recommendation]
    rw [if_neg (by intro h; linarith), if_neg (by intro h; linarith), if_pos (by linarith)]
    simp only [String.data_append, List.append_assoc]
    exact leadsList_self_append _ _
  · intro h40
    simp only [generate_day_recommendation]
    rw [if_neg (by intro h; linarith), if_neg (by intro h; linarith),
      if_neg (by intro h; linarith)]
    simp only [String.data_append, List.append_assoc]
    exact leadsList_self_append _ _
  · intro hcold
    simp only [get_main_concern]
    rw [if_pos hcold]
  · intro hmin hhot
    simp only [get_main_concern]
    rw [if_neg (by intro h; linarith), if_pos hhot]
  · intro hmin hmax hrain
    simp only [get_main_concern]
    rw [if_neg (by intro h; linarith), if_neg (by intro h; linarith), if_pos hrain]
  · intro hmin hmax hrain hwind
    simp only [get_main_concern]
    rw [if_neg (by intro h; linarith), if_neg (by intro h; linarith),
      if_neg (by intro h; linarith), if_pos hwind]

theorem pyFloat_twenty : pyFloat (20 : ℚ) = "20.0" := by
  simp only [pyFloat]
  rw [if_neg (by norm_num)]
  simp only [pyFloatNN]
  rw [show ((20 : ℚ) * 10) = (200 : ℚ) from by norm_num]
  rw [if_pos (by rw [Rat.den_ofNat])]
  rw [Rat.num_ofNat]
  decide

theorem pyFloat_nine : pyFloat (9 : ℚ) = "9.0" := by
  simp only [pyFloat]
  rw [if_neg (by norm_num)]
  simp only [pyFloatNN]
  rw [show ((9 : ℚ) * 10) = (90 : ℚ) from by norm_num]
  rw [if_pos (by rw [Rat.den_ofNat])]
  rw [Rat.num_ofNat]
  decide

theorem cloudy_rain_day_score :
    calculate_activity_score cloudy_rain_day hiking_profile = 1619/21 := by
  have htemp : calculate_temperature_score (20 : ℚ) hiking_profile = 34/35 := by
    simp only [calculate_temperature_score, hiking_profile]
    rw [if_pos (by norm_num)]
    rw [show ((20 : ℚ) - (0 + 35) / 2) = 5/2 from by norm_num]
    rw [abs_of_nonneg (by norm_num : (0 : ℚ) ≤ 5/2)]
    norm_num
  have hwind : calculate_wind_score (10 : ℚ) hiking_profile = 1 := by
    simp only [calculate_wind_score, hiking_profile, Option.getD_some]
    rw [if_pos (by norm_num)]
    norm_num
  have hprecip : calculate_precipitation_score cloudy_rain_day hiking_profile = 8/15 := by
    simp only [calculate_precipitation_score, cloudy_rain_day, hiking_profile,
      Option.getD_some, Option.isSome_none]
    rw [if_neg (by simp)]
    rw [if_neg (by decide)]
    rw [if_neg (by norm_num), if_neg (by norm_num)]
    rw [show ((9 : ℚ) - 8) / 15 = 1/15 from by norm_num]
    rw [show (0.6 : ℚ) - 1/15 = 8/15 from by norm_num]
    rw [max_eq_right (by norm_num : (0.1 : ℚ) ≤ 8/15)]
    norm_num
  have hcond : calculate_condition_score "Clouds" hiking_profile = 0.8 := by
    simp [calculate_condition_score]
  simp only [calculate_activity_score]
  rw [show cloudy_rain_day.temp_high_c = (20 : ℚ) from rfl,
    show cloudy_rain_day.wind_kph = (10 : ℚ) from rfl,
    show cloudy_rain_day.condition_main = "Clouds" from rfl]
  rw [htemp, hwind, hprecip, hcond]
  rw [show (34/35 * hiking_profile.factors.temperature + 1 * hiking_profile.factors.wind +
      8/15 * hiking_profile.factors.precipitation +
      (0.8 : ℚ) * hiking_profile.factors.conditions) * 100 = 1619/21 from by
    norm_num [hiking_profile]]
  rw [min_eq_right (by norm_num : (1619/21 : ℚ) ≤ 100)]
  rw [max_eq_right (by norm_num : (0 : ℚ) ≤ 1619/21)]

/-- C8 counterexample: against the hiking profile a cloudy day with 9 mm of
rain, above the profile maximum of 8, scores 1619/21, about 77.1, which is
below the Excellent band, yet the recommendation text is the Good band text
and does not cite the limiting factor identified by get_main_concern. -/
theorem C8_counterexample :
    60 ≤ calculate_activity_score cloudy_rain_day hiking_profile ∧
    calculate_activity_score cloudy_rain_day hiking_profile < 80 ∧
    get_main_concern cloudy_rain_day hiking_profile = "rain expected (9.0mm)" ∧
    generate_day_recommendation cloudy_rain_day hiking_profile
      (calculate_activity_score cloudy_rain_day hiking_profile) =
      "Good conditions. 20.0°C with scattered clouds." ∧
    containsSub (get_main_concern cloudy_rain_day hiking_profile)
      (generate_day_recommendation cloudy_rain_day hiking_profile
        (calculate_activity_score cloudy_rain_day hiking_profile)) = false := by
  have hconcern : get_main_concern cloudy_rain_day hiking_profile =
      "rain expected (9.0mm)" := by
    simp only [get_main_concern, cloudy_rain_day, hiking_profile, Option.getD_some]
    rw [if_neg (by norm_num), if_neg (by norm_num), if_pos (by norm_num)]
    rw [pyFloat_nine]
    decide
  have hrec : generate_day_recommendation cloudy_rain_day hiking_profile
      (calculate_activity_score cloudy_rain_day hiking_profile) =
      "Good conditions. 20.0°C with scattered clouds." := by
    rw [cloudy_rain_day_score]
    simp only [generate_day_recommendation]
    rw [if_neg (by norm_num), if_pos (by norm_num)]
    rw [show cloudy_rain_day.temp_high_c = (20 : ℚ) from rfl, pyFloat_twenty]
    rw [show cloudy_rain_day.condition = "scattered clouds" from rfl]
    decide
  refine ⟨by rw [cloudy_rain_day_score]; norm_num,
    by rw [cloudy_rain_day_score]; norm_num, hconcern, hrec, ?_⟩
  rw [hconcern, hrec]
  decide

/-- C8 witness: the amended statement instantiated at the cloudy rain day
with a score of 30 and at the rain priority branch. -/
theorem C8_day_recommendation_witness :
    containsSub (get_main_concern cloudy_rain_day hiking_profile)
      (generate_day_recommendation cloudy_rain_day hiking_profile 30) = true ∧
    get_main_concern cloudy_rain_day hiking_profile =
      "rain expected (" ++ pyFloat cloudy_rain_day.precip_mm ++ "mm)" :=
  ⟨(C8_day_recommendation cloudy_rain_day hiking_profile 30).1 (by norm_num),
   (C8_day_recommendation cloudy_rain_day hiking_profile 30).2.2.2.2.2.2.2.1
     (by norm_num [cloudy_rain_day, hiking_profile])
     (by norm_num [cloudy_rain_day, hiking_profile])
     (by norm_num [cloudy_rain_day, hiking_profile])⟩

theorem summarize_day_condition_mode (ord : List String → List String)
    (hord : PySetOrder ord) (d : ℕ) (G : List ForecastSample) (hne : G ≠ []) :
    (summarize_day ord d G).condition_main ∈ G.map (fun s => s.condition_main) ∧
    ∀ c ∈ G.map (fun s => s.condition_main),
      (G.map (fun s => s.condition_main)).count c ≤
        (G.map (fun s => s.condition_main)).count (summarize_day ord d G).condition_main := by
  obtain ⟨g0, gs, rfl⟩ := List.exists_cons_of_ne_nil hne
  have hproj : (summarize_day ord d (g0 :: gs)).condition_main =
      (((g0 :: gs).find? (fun s => s.condition_main ==
        (maxByKey (fun c => ((g0 :: gs).map (fun s => s.condition_main)).count c)
          (ord ((g0 :: gs).map (fun s => s.condition_main)))).getD "")).map
        (fun s => s.condition_main)).getD "" := rfl
  obtain ⟨hnodup, hmemiff⟩ := hord ((g0 :: gs).map (fun s => s.condition_main))
  have hg0m : g0.condition_main ∈ (g0 :: gs).map (fun s => s.condition_main) :=
    List.mem_map.mpr ⟨g0, List.mem_cons_self g0 gs, rfl⟩
  have hone : ord ((g0 :: gs).map (fun s => s.condition_main)) ≠ [] := by
    intro hnil
    have hmm := (hmemiff g0.condition_main).mpr hg0m
    rw [hnil] at hmm
    exact List.not_mem_nil _ hmm
  obtain ⟨x, xs, hxs⟩ := List.exists_cons_of_ne_nil hone
  have hm : maxByKey (fun c => ((g0 :: gs).map (fun s => s.condition_main)).count c)
      (ord ((g0 :: gs).map (fun s => s.condition_main))) =
      some (xs.foldl (fun acc y =>
        if ((g0 :: gs).map (fun s => s.condition_main)).count acc <
           ((g0 :: gs).map (fun s => s.condition_main)).count y then y else acc) x) := by
    rw [hxs]
    rfl
  set m := xs.foldl (fun acc y =>
    if ((g0 :: gs).map (fun s => s.condition_main)).count acc <
       ((g0 :: gs).map (fun s => s.condition_main)).count y then y else acc) x with hmdef
  have hspec := maxByKey_spec (fun c => ((g0 :: gs).map (fun s => s.condition_main)).count c)
    xs x m (by rw [← hxs, hm])
  rw [← hxs] at hspec
  have hmmains : m ∈ (g0 :: gs).map (fun s => s.condition_main) := (hmemiff m).mp hspec.1
  obtain ⟨sm, hsmG, hsmm⟩ := List.mem_map.mp hmmains
  have hfs : ((g0 :: gs).find? (fun s => s.condition_main == m)).isSome = true :=
    List.find?_isSome.mpr ⟨sm, hsmG, by simp [hsmm]⟩
  obtain ⟨sf, hsf⟩ := Option.isSome_iff_exists.mp hfs
  have hsfm : sf.condition_main = m := by
    have := List.find?_some hsf
    simpa using this
  have hmain : (summarize_day ord d (g0 :: gs)).condition_main = m := by
    rw [hproj, hm]
    simp only [Option.getD_some]
    rw [hsf]
    simp [hsfm]
  rw [hmain]
  refine ⟨hmmains, ?_⟩
  intro c hc
  exact hspec.2 c ((hmemiff c).mpr hc)

/-- C5 as amended: the reported dominant condition is always a statistical
mode of the per-sample conditions of its date; ties between modes are broken
by the Python set iteration order (an unspecified enumeration of the
distinct conditions), not necessarily by first encountered sample order. -/
theorem C5_dominant_mode (ord : List String → List String) (hord : PySetOrder ord)
    (samples : List ForecastSample) (num_days : ℕ) :
    ∀ o ∈ get_multi_day_forecast ord samples num_days,
      o.condition_main ∈ (sameDate o.date samples).map (fun s => s.condition_main) ∧
      ∀ c ∈ (sameDate o.date samples).map (fun s => s.condition_main),
        ((sameDate o.date samples).map (fun s => s.condition_main)).count c ≤
          ((sameDate o.date samples).map (fun s => s.condition_main)).count o.condition_main := by
  intro o ho
  simp only [get_multi_day_forecast, List.mem_map] at ho
  obtain ⟨d, hd, rfl⟩ := ho
  rw [show (summarize_day ord d (sameDate d samples)).date = d from rfl]
  have hdmem : d ∈ datesOf samples := by
    have h1 : d ∈ List.insertionSort (· ≤ ·) (datesOf samples) :=
      (List.take_sublist _ _).subset hd
    exact ((List.perm_insertionSort _ _).mem_iff).mp h1
  have hex : ∃ s0, s0 ∈ samples ∧ s0.date = d := by
    simp only [datesOf, List.mem_dedup, List.mem_map] at hdmem
    obtain ⟨s0, hs0, hdd⟩ := hdmem
    exact ⟨s0, hs0, hdd⟩
  obtain ⟨s0, hs0mem, hs0d⟩ := hex
  have hne : sameDate d samples ≠ [] := by
    intro hnil
    have : s0 ∈ sameDate d samples := List.mem_filter.mpr ⟨hs0mem, by simp [hs0d]⟩
    rw [hnil] at this
    exact List.not_mem_nil _ this
  exact summarize_day_condition_mode ord hord d (sameDate d samples) hne

/-- C5 witness for the amended statement: a single clear sample under the
first encountered enumeration. -/
theorem C5_dominant_mode_witness :
    PySetOrder dedupOrder ∧
    (summarize_day dedupOrder 0 (sameDate 0 [clear_sample]) ∈
      get_multi_day_forecast dedupOrder [clear_sample] 1) ∧
    (summarize_day dedupOrder 0 (sameDate 0 [clear_sample])).condition_main ∈
      (sameDate (summarize_day dedupOrder 0 (sameDate 0 [clear_sample])).date
        [clear_sample]).map (fun s => s.condition_main) := by
  have hmem : summarize_day dedupOrder 0 (sameDate 0 [clear_sample]) ∈
      get_multi_day_forecast dedupOrder [clear_sample] 1 := by
    have hday : get_multi_day_forecast dedupOrder [clear_sample] 1 =
        [summarize_day dedupOrder 0 (sameDate 0 [clear_sample])] := by
      simp [get_multi_day_forecast, datesOf, clear_sample,
        List.insertionSort, List.orderedInsert]
    rw [hday]
    exact List.mem_singleton.mpr rfl
  exact ⟨dedupOrder_pySetOrder, hmem,
    (C5_dominant_mode dedupOrder dedupOrder_pySetOrder [clear_sample] 1 _ hmem).1⟩

/-- C5 counterexample: with two samples of one date whose conditions Rain
then Clear tie at one occurrence each, the legitimate set iteration order
swapOrder makes the code report Clear, while the first encountered mode is
Rain, refuting the claimed first encountered tie-break. -/
theorem C5_counterexample :
    PySetOrder swapOrder ∧
    (get_multi_day_forecast swapOrder [rain_sample, clear_sample] 1).map
      (fun o => o.condition_main) = ["Clear"] ∧
    firstEncounteredMode ([rain_sample, clear_sample].map (fun s => s.condition_main)) =
      "Rain" ∧
    ([rain_sample, clear_sample].map (fun s => s.condition_main)).count "Rain" =
      ([rain_sample, clear_sample].map (fun s => s.condition_main)).count "Clear" := by
  refine ⟨?_, by decide, by decide, by decide⟩
  intro l
  by_cases hl : l = ["Rain", "Clear"]
  · subst hl
    constructor
    · decide
    · intro x
      show x ∈ ["Clear", "Rain"] ↔ x ∈ ["Rain", "Clear"]
      simp only [List.mem_cons, List.not_mem_nil, or_false]
      tauto
  · have : swapOrder l = l.dedup := if_neg hl
    rw [this]
    exact ⟨l.nodup_dedup, fun x => List.mem_dedup⟩
